import Mathlib

/-!
Verification development for the portfolio site's AI-assistant query pipeline
(`src/lib/ai-assistant.ts`, plus the offline embedding batch job
`src/scripts/generate-embeddings.js`).

Strings are modelled as lists of characters (`Str`).  The JavaScript regular
expressions used by the pipeline are embedded via a small backtracking regex
engine (`Regex`, `matchR`, `rtest`) that supports exactly the constructs the
source patterns use: character classes, concatenation, alternation,
greedy star over a character class, word boundaries and the `^`/`$` anchors.
`Math.sin`, the out-of-double-range multiplication in the batch job, and
`Math.random` values are passed in as explicit parameters, since they are
floating-point operations of the host; everything else is translated directly.
-/

abbrev Str := List Char

/-- JavaScript `\w` character class: `[A-Za-z0-9_]`. -/
def isWordChar (c : Char) : Bool := c.isAlpha || c.isDigit || c == '_'

/-- JavaScript `\s` class (the whitespace characters relevant here). -/
def jsSpace (c : Char) : Bool :=
  c == ' ' || c == '\t' || c == '\n' || c == '\r' ||
  c == Char.ofNat 11 || c == Char.ofNat 12 || c == Char.ofNat 160

/-- JavaScript `.` (without the `s` flag): any character but a line terminator. -/
def jsDot (c : Char) : Bool :=
  !(c == '\n' || c == '\r' || c == Char.ofNat 8232 || c == Char.ofNat 8233)

/-- JavaScript `\d`. -/
def jsDigit (c : Char) : Bool := c.isDigit

/-- Regular expressions, restricted to the constructs appearing in the source.
Quantifiers (`*`, `+`, `{n,}`) only ever apply to single character classes in
the source's patterns, so the star is over a class.  -/
inductive Regex where
  | eps : Regex
  | nope : Regex
  | cls (p : Char → Bool) : Regex
  | seq (r1 r2 : Regex) : Regex
  | alt (r1 r2 : Regex) : Regex
  | starC (p : Char → Bool) : Regex
  | wordB : Regex
  | bos : Regex
  | eos : Regex

/-- Is there a word boundary between `prev` and `next` (`\b`)? -/
def atWordB (prev next : Option Char) : Bool :=
  (match prev with | none => false | some c => isWordChar c) !=
  (match next with | none => false | some c => isWordChar c)

/-- Greedy matching of `p*`: all ways to consume a prefix of `p`-characters,
longest first (JS backtracking priority).  Each result is the character just
before the remaining suffix together with that suffix. -/
def starMatches (p : Char → Bool) : Option Char → Str → List (Option Char × Str)
  | prev, [] => [(prev, [])]
  | prev, c :: rest =>
    if p c then starMatches p (some c) rest ++ [(prev, c :: rest)]
    else [(prev, c :: rest)]

/-- All ways (in JS backtracking priority order) for `r` to match a prefix of
`l`, given that `prev` is the character immediately before `l` (needed
for `\b` and `^`).  Each result is the last consumed character (or `prev`)
and the remaining suffix. -/
def matchR : Regex → Option Char → Str → List (Option Char × Str)
  | .eps, prev, l => [(prev, l)]
  | .nope, _, _ => []
  | .cls p, _, l =>
    match l with
    | [] => []
    | c :: rest => if p c then [(some c, rest)] else []
  | .seq r1 r2, prev, l =>
    (matchR r1 prev l).flatMap (fun pr => matchR r2 pr.1 pr.2)
  | .alt r1 r2, prev, l => matchR r1 prev l ++ matchR r2 prev l
  | .starC p, prev, l => starMatches p prev l
  | .wordB, prev, l => if atWordB prev l.head? then [(prev, l)] else []
  | .bos, prev, l => if prev.isNone then [(prev, l)] else []
  | .eos, prev, l => if l.isEmpty then [(prev, l)] else []

/-- Does `r` match starting at some position of the remaining input, where
`prev` is the character before that input? -/
def rtestFrom (r : Regex) : Option Char → Str → Bool
  | prev, [] => !(matchR r prev []).isEmpty
  | prev, c :: rest =>
    !(matchR r prev (c :: rest)).isEmpty || rtestFrom r (some c) rest

/-- JavaScript `regex.test(l)`. -/
def rtest (r : Regex) (l : Str) : Bool := rtestFrom r none l

/-! Combinators used to transcribe the source patterns. -/

def rchar (c : Char) : Regex := .cls (fun x => x == c)

/-- A literal string. -/
def rlit (s : String) : Regex :=
  s.data.foldr (fun c acc => Regex.seq (rchar c) acc) .eps

def rcat (l : List Regex) : Regex := l.foldr .seq .eps

def ralts (l : List Regex) : Regex := l.foldr .alt .nope

def rlits (l : List String) : Regex := ralts (l.map rlit)

/-- Quantifier `p+` for a class `p`. -/
def rplusP (p : Char → Bool) : Regex := .seq (.cls p) (.starC p)

/-- Quantifier `c+` for a single character. -/
def rplusC (c : Char) : Regex := rplusP (fun x => x == c)

/-- Quantifier `r?`. -/
def ropt (r : Regex) : Regex := .alt r .eps

/-- A class given by the characters of a string, e.g. `[aeiou]`. -/
def cset (s : String) : Char → Bool := fun c => s.data.contains c

/-- Word-bounded pattern `\b r \b`. -/
def bounded (r : Regex) : Regex := rcat [.wordB, r, .wordB]

/-- Pattern `\s*`. -/
def wsStar : Regex := .starC jsSpace

/-- Pattern `\s+`. -/
def wsPlus : Regex := rplusP jsSpace

/-- Pattern `\d+`. -/
def digPlus : Regex := rplusP jsDigit

/-- Pattern `.*`. -/
def dotStar : Regex := .starC jsDot

/-- The apostrophe character (U+0027). -/
def apoChar : Char := Char.ofNat 39

/-- Characters removed by JavaScript `String.prototype.trim`. -/
def jsTrimChar (c : Char) : Bool :=
  jsSpace c || c == Char.ofNat 8232 || c == Char.ofNat 8233 || c == Char.ofNat 65279

/-- JavaScript `String.prototype.trim`. -/
def jsTrim (l : Str) : Str :=
  ((l.dropWhile jsTrimChar).reverse.dropWhile jsTrimChar).reverse

/-- JavaScript `String.prototype.toLowerCase` (ASCII range). -/
def jsLower (l : Str) : Str := l.map Char.toLower

-- ============ TYPES (ai-assistant.ts) ============

inductive CType where
  | project | experience | skill | education | personal
deriving DecidableEq

structure KnowledgeChunk where
  id : Str
  text : Str
  ctype : CType
  title : Option Str
  tags : List Str
  embedding : List ℝ

inductive Source where
  | api | fallback | pattern | security | mess
deriving DecidableEq

structure UIAction where
  typ : Str
deriving DecidableEq

structure AIResponse where
  text : Str
  action : Option UIAction
  source : Source
deriving DecidableEq

inductive ThreatType where
  | profanity | injection | hate_speech | manipulation | spam
deriving DecidableEq

structure SecurityCheckResult where
  safe : Bool
  reason : Option Str
  threatType : Option ThreatType
deriving DecidableEq

-- ============ SECURITY CONFIGURATION ============

def maxQueryLength : Nat := 500
def maxQueriesPerMinute : Nat := 20

-- ============ SECURITY LAYER (performSecurityCheck) ============

/-- Class `[\W_]`. -/
def nonWordOrU (c : Char) : Bool := !isWordChar c || c == '_'

/-- The 11 profanity patterns (case-insensitivity realised by the caller
lowercasing the tested string). -/
def profanityPatterns : List Regex :=
  [ bounded (ralts [rcat [rplusC 'f', rplusC 'u', rplusC 'c', rplusC 'k'],
      rcat [rplusC 'f', rplusC 'c', rplusC 'k'], rlit "fuk", rlit "fck", rlit "fk"]),
    bounded (ralts [rcat [rchar 's', rplusC 'h', rplusC 'i', rplusC 't'],
      rlit "sh1t", rlit "sht"]),
    bounded (ralts [rcat [rplusC 'a', rplusC 's', rplusC 's', rplusC 'h',
      rplusC 'o', rplusC 'l', rplusC 'e'], rlit "@sshole"]),
    bounded (ralts [rcat [rplusC 'b', rplusC 'i', rplusC 't', rplusC 'c', rplusC 'h'],
      rlit "b1tch", rlit "btch"]),
    bounded (rcat [rplusC 'c', rplusC 'u', rplusC 'n', rplusC 't']),
    bounded (ralts [rcat [rplusC 'd', rplusC 'i', rplusC 'c', rplusC 'k'], rlit "d1ck"]),
    bounded (rcat [rplusC 'p', rplusC 'u', rplusC 's', rplusC 's', rplusC 'y']),
    bounded (rlits ["sex", "porn", "naked", "nude", "xxx"]),
    rcat [rlit "suck", dotStar, rlits ["my", "mah", "ma"]],
    rcat [rchar 'f', .starC nonWordOrU, rchar 'u', .starC nonWordOrU,
      rchar 'c', .starC nonWordOrU, rchar 'k'],
    rcat [rchar 's', .starC nonWordOrU, rchar 'h', .starC nonWordOrU,
      rchar 'i', .starC nonWordOrU, rchar 't'] ]

/-- The 5 hate-speech patterns. -/
def hateSpeechPatterns : List Regex :=
  [ bounded (rlits ["nigger", "nigga", "fag", "faggot", "retard", "spic", "chink", "kike"]),
    rcat [.wordB, rlits ["heil", "hail"], wsStar, rlits ["hitler", "fuhrer"]],
    rcat [.wordB, rlits ["kill", "murder", "die", "hurt", "harm"], wsStar,
      rlits ["all", "every", "the"], wsStar,
      rlits ["jews", "blacks", "whites", "muslims", "christians", "gays"]],
    rcat [.wordB, rlits ["white", "black", "jew", "muslim"], wsStar,
      rlits ["power", "supremacy"]],
    rcat [.wordB, ralts [rcat [rlit "gas", wsStar, rlit "the"], rlit "lynch", rlit "hang"],
      wsStar, ralts [rlit "jews", rlit "blacks", rcat [rchar 'n', rplusC '*']]] ]

/-- The 7 SQL-injection patterns. -/
def sqlInjectionPatterns : List Regex :=
  [ rcat [.wordB, rlits ["select", "insert", "update", "delete", "drop", "truncate",
      "alter", "create", "exec", "execute"], .wordB, dotStar, .wordB,
      rlits ["from", "into", "table", "database", "where"], .wordB],
    rcat [.wordB, rlit "union", .wordB, dotStar, .wordB, rlit "select", .wordB],
    rcat [ralts [rlit "--", rchar ';', rchar apoChar, rchar '"'], wsStar,
      rlits ["or", "and"], wsStar, ralts [rchar apoChar, rchar '"', .cls jsDigit]],
    bounded (ralts [rcat [rchar '1', wsStar, rchar '=', wsStar, rchar '1'],
      rcat [rchar apoChar, rchar '=', rchar apoChar],
      rcat [rchar '"', rchar '=', rchar '"']]),
    rcat [ralts [bounded (rlit "or"), bounded (rlit "and")], wsStar, digPlus,
      wsStar, rchar '=', wsStar, digPlus],
    rcat [.wordB, rlit "drop", wsPlus, rlits ["table", "database"], .wordB],
    rcat [.wordB, rlit "delete", wsPlus, ropt (rchar '*'), wsStar, rlit "from", .wordB] ]

/-- The 10 prompt-injection patterns. -/
def promptInjectionPatterns : List Regex :=
  [ rcat [rlit "ignore", wsStar, ropt (rcat [rlit "all", wsStar]),
      rlits ["previous", "prior", "above"], wsStar,
      ralts [rcat [rlit "instruction", ropt (rchar 's')],
        rcat [rlit "prompt", ropt (rchar 's')], rcat [rlit "rule", ropt (rchar 's')]]],
    rcat [rlit "forget", wsStar, rlits ["everything", "all", "your"], wsStar,
      ralts [rlit "you", rcat [rlit "instruction", ropt (rchar 's')], rlit "training"]],
    rcat [rlit "you", wsStar, rlit "are", wsStar, rlit "now", wsStar,
      rlits ["a", "an", "the"], wsStar, rlits ["evil", "bad", "malicious", "hacker"]],
    rcat [rlit "pretend", wsStar,
      ralts [rcat [rlit "to", wsStar, rlit "be"], rcat [rlit "you", wsStar, rlit "are"]],
      wsStar, rlits ["a", "an", "the"]],
    rcat [rlit "act", wsStar, rlit "as", wsStar, rlits ["if", "though"], wsStar,
      rlit "you", wsStar, rlits ["are", "were"]],
    rcat [.wordB, rlit "system", wsStar, rlit "prompt", .wordB],
    bounded (rlit "jailbreak"),
    rcat [.wordB, rlit "dan", wsStar, rlit "mode", .wordB],
    rcat [rlit "override", wsStar, rlits ["your", "the"], wsStar,
      ralts [rlit "programming", rcat [rlit "instruction", ropt (rchar 's')],
        rcat [rlit "rule", ropt (rchar 's')]]],
    rcat [rlit "reveal", wsStar, rlits ["your", "the"], wsStar,
      rlits ["system", "hidden", "secret"], wsStar,
      ralts [rlit "prompt", rcat [rlit "instruction", ropt (rchar 's')]]] ]

/-- The 7 code-injection patterns. -/
def codeInjectionPatterns : List Regex :=
  [ rcat [rlit "<script", .wordB, .starC (fun c => !(c == '>')), rchar '>'],
    rlit "javascript:",
    rcat [rlit "on", rlits ["click", "load", "error", "mouseover"], wsStar, rchar '='],
    rcat [.wordB, rlit "eval", wsStar, rchar '('],
    rcat [.wordB, rlit "exec", wsStar, rchar '('],
    bounded (rlit "__proto__"),
    rcat [.wordB, rlit "constructor", .wordB, dotStar, rchar '('] ]

/-- Comprehensive security check for incoming queries
(`performSecurityCheck`, ai-assistant.ts:124-213).  The length check uses the
raw argument; the pattern groups test the lowercased, trimmed argument. -/
def performSecurityCheck (query : Str) : SecurityCheckResult :=
  let q := jsTrim (jsLower query)
  if query.length > maxQueryLength then
    ⟨false, some "Query too long".data, some .spam⟩
  else if profanityPatterns.any (fun p => rtest p q) then
    ⟨false, some "Inappropriate language detected".data, some .profanity⟩
  else if hateSpeechPatterns.any (fun p => rtest p q) then
    ⟨false, some "Hate speech detected".data, some .hate_speech⟩
  else if sqlInjectionPatterns.any (fun p => rtest p q) then
    ⟨false, some "Potential SQL injection detected".data, some .injection⟩
  else if promptInjectionPatterns.any (fun p => rtest p q) then
    ⟨false, some "Prompt manipulation attempt detected".data, some .manipulation⟩
  else if codeInjectionPatterns.any (fun p => rtest p q) then
    ⟨false, some "Code injection attempt detected".data, some .injection⟩
  else ⟨true, none, none⟩

example : (performSecurityCheck "shit retard".data).threatType = some .profanity := by
  decide

example : (performSecurityCheck "hello there".data).safe = true := by decide

-- ============ SANITIZER (sanitizeInput) ============

/-- Global regex replacement by the empty string, JS semantics: scan left to
right; at each position take the backtracking-priority-first match, delete it
and continue after it; on an empty match (impossible for the patterns used)
keep the character and advance.  Fuel is the input length plus one, which
suffices because every step either consumes a matched character or emits one. -/
def replaceAllAux (r : Regex) : Nat → Option Char → Str → Str
  | 0, _, l => l
  | fuel + 1, prev, l =>
    match (matchR r prev l).head? with
    | some pr =>
      if pr.2.length < l.length then replaceAllAux r fuel pr.1 pr.2
      else
        match l with
        | [] => []
        | c :: cs => c :: replaceAllAux r fuel (some c) cs
    | none =>
      match l with
      | [] => []
      | c :: cs => c :: replaceAllAux r fuel (some c) cs

/-- JavaScript `str.replace(regex-with-g-flag, emptyString)`. -/
def jsReplaceAll (r : Regex) (l : Str) : Str := replaceAllAux r (l.length + 1) none l

/-- A case-insensitive character (for `/gi` replacements on raw input). -/
def ichar (c : Char) : Regex := .cls (fun x => x.toLower == c)

/-- A case-insensitive literal. -/
def ilit (s : String) : Regex :=
  s.data.foldr (fun c acc => Regex.seq (ichar c) acc) .eps

/-- Pattern `/<[^>]*>/g` (HTML-tag-like substrings). -/
def htmlTagRe : Regex := rcat [rchar '<', .starC (fun c => !(c == '>')), rchar '>']

/-- Pattern `/javascript:/gi`. -/
def jsProtocolRe : Regex := ilit "javascript:"

/-- Pattern `/on\w+\s*=/gi` (inline event handlers). -/
def eventHandlerRe : Regex :=
  rcat [ichar 'o', ichar 'n', rplusP isWordChar, wsStar, rchar '=']

/-- Sanitize input (`sanitizeInput`, ai-assistant.ts:218-225). -/
def sanitizeInput (query : Str) : Str :=
  (jsTrim (jsReplaceAll eventHandlerRe
    (jsReplaceAll jsProtocolRe (jsReplaceAll htmlTagRe query)))).take maxQueryLength

example : sanitizeInput "  hi <b>there</b> JavaScript:alert onload = x ".data =
    "hi there alert  x".data := by decide

-- ============ RATE LIMITER (checkRateLimit) ============

structure RateRecord where
  count : Nat
  resetTime : Int
deriving DecidableEq

/-- The rate-limiting store (`rateLimitStore`), a map from client ids to
records, modelled as an association list in insertion order. -/
abbrev Store := List (Str × RateRecord)

def storeGet (st : Store) (k : Str) : Option RateRecord :=
  (st.find? (fun p => p.1 == k)).map (·.2)

def storeSet : Store → Str → RateRecord → Store
  | [], k, v => [(k, v)]
  | p :: rest, k, v => if p.1 == k then (k, v) :: rest else p :: storeSet rest k v

/-- Rate limiting check (`checkRateLimit`, ai-assistant.ts:231-246), with the
mutable store and `Date.now()` made explicit: returns the boolean result and
the updated store. -/
def checkRateLimit (clientId : Str) (now : Int) (st : Store) : Bool × Store :=
  match storeGet st clientId with
  | none => (true, storeSet st clientId ⟨1, now + 60000⟩)
  | some record =>
    if now > record.resetTime then (true, storeSet st clientId ⟨1, now + 60000⟩)
    else if record.count ≥ maxQueriesPerMinute then (false, st)
    else (true, storeSet st clientId ⟨record.count + 1, record.resetTime⟩)

-- ============ MESS FACTOR DETECTION ============

/-- Translation of the back-reference pattern `/(.)\1{4,}/`: some character
(not a line terminator, since `.` excludes those) occurs at least five times
consecutively. -/
def hasRepeat5 : Str → Bool
  | a :: b :: c :: d :: e :: rest =>
    (jsDot a && a == b && b == c && c == d && d == e) ||
      hasRepeat5 (b :: c :: d :: e :: rest)
  | _ => false

mutual
/-- JavaScript `split` on a one-or-more-separator-characters regex: the
tokens between separator runs, keeping the empty boundary tokens that JS
produces when the string starts or ends with a separator. -/
def splitRunsTok (sep : Char → Bool) (cur : Str) : Str → List Str
  | [] => [cur.reverse]
  | c :: rest =>
    if sep c then cur.reverse :: splitRunsSep sep rest else splitRunsTok sep (c :: cur) rest

/-- State inside a separator run. -/
def splitRunsSep (sep : Char → Bool) : Str → List Str
  | [] => [[]]
  | c :: rest => if sep c then splitRunsSep sep rest else splitRunsTok sep [c] rest
end

/-- JavaScript `l.split(/sep+/)`. -/
def splitRuns (sep : Char → Bool) (l : Str) : List Str := splitRunsTok sep [] l

/-- The short-word allow-list `/^(hi|ok|no|go|...)$/`. -/
def shortAllowRe : Regex :=
  rcat [.bos, rlits ["hi", "ok", "no", "go", "do", "me", "we", "us", "it", "is",
    "am", "an", "as", "at", "be", "by", "he", "if", "in", "my", "of", "on",
    "or", "so", "to", "up"], .eos]

/-- Class `[bcdfghjklmnpqrstvwxyz]`. -/
def consClass : Char → Bool := cset "bcdfghjklmnpqrstvwxyz"

/-- Pattern `/[bcdfghjklmnpqrstvwxyz]{5,}/i`. -/
def consonantClusterRe : Regex :=
  rcat (List.replicate 5 (Regex.cls consClass) ++ [Regex.starC consClass])

/-- Detect if the query is gibberish or random keyboard mashing
(`isGibberish`, ai-assistant.ts:253-282). -/
def isGibberish (query : Str) : Bool :=
  let q := jsTrim (jsLower query)
  if q.length ≤ 2 && !(rtest shortAllowRe q) then true
  else if hasRepeat5 q then true
  else if (splitRuns jsSpace q).any
      (fun w => w.length > 4 && !(rtest (.cls (cset "aeiou")) w)) then true
  else if rtest consonantClusterRe q then true
  else
    let ns := q.filter (fun c => !jsSpace c)
    decide (ns.length > 5 ∧ ns.dedup.length * 10 > ns.length * 9)

example : isGibberish "asdf asdf asdf".data = false := by decide
example : isGibberish "sdfgh sdfgh sdfgh".data = true := by decide
example : isGibberish "".data = true := by decide

/-- The 12 off-topic patterns. -/
def offTopicPatterns : List Regex :=
  [ bounded (rlits ["trump", "biden", "obama", "politics", "election", "vote",
      "democrat", "republican"]),
    bounded (rlits ["weather", "forecast", "temperature", "rain", "snow"]),
    bounded (rlits ["recipe", "cook", "food", "restaurant", "eat"]),
    bounded (rlits ["movie", "film", "actor", "actress", "celebrity", "kardashian"]),
    bounded (rlits ["sports", "football", "basketball", "soccer", "baseball", "nfl", "nba"]),
    bounded (rlits ["game", "gaming", "xbox", "playstation", "nintendo",
      "fortnite", "minecraft"]),
    bounded (rlits ["crypto", "bitcoin", "ethereum", "nft", "dogecoin"]),
    bounded (ralts [rcat [rlit "stock", wsStar, rlit "market"], rlit "invest",
      rlit "trading", rlit "forex"]),
    bounded (rlits ["pythagoras", "einstein", "newton", "theorem", "formula"]),
    bounded (rlits ["god", "jesus", "allah", "buddha", "religion", "pray",
      "church", "temple", "mosque"]),
    bounded (rlits ["horoscope", "zodiac", "astrology", "tarot"]),
    bounded (rlits ["dating", "tinder", "relationship", "boyfriend", "girlfriend", "marry"]) ]

/-- Pattern `/\b(yash|shah|portfolio|project|skill|experience|education|contact|hire)\b/i`. -/
def mentionsYashRe : Regex :=
  bounded (rlits ["yash", "shah", "portfolio", "project", "skill", "experience",
    "education", "contact", "hire"])

/-- Detect if the query is completely off-topic (`isOffTopic`,
ai-assistant.ts:287-310). -/
def isOffTopic (query : Str) : Bool :=
  let q := jsTrim (jsLower query)
  offTopicPatterns.any (fun p => rtest p q) && !(rtest mentionsYashRe q)

/-- Class `[\+\-\*\/\^]`. -/
def arithOp : Char → Bool := cset "+-*/^"

/-- The 4 trivia patterns. -/
def triviaPatterns : List Regex :=
  [ rcat [.bos, digPlus, wsStar, .cls arithOp, wsStar, digPlus],
    rcat [.bos, rlit "what", wsPlus, rlit "is", wsPlus, digPlus, wsStar,
      .cls arithOp, wsStar, digPlus],
    rcat [.bos, rlits ["who", "what", "when", "where", "why", "how"], wsPlus,
      rlits ["is", "was", "are", "were", "did"], wsPlus,
      ropt (rlits ["the", "a", "an"]), wsStar,
      rlits ["capital", "president", "king", "queen", "inventor", "discoverer"]],
    rcat [.bos, ralts [rlit "tell", rlit "explain", rlit "define",
      rcat [rlit "what", wsPlus, rlit "is"]], wsPlus,
      ropt (rcat [rlit "the", wsPlus]), rlits ["meaning", "definition", "concept"],
      wsPlus, rlit "of"] ]

/-- Detect if the query is a simple math or trivia question
(`isTriviaQuestion`, ai-assistant.ts:315-326). -/
def isTriviaQuestion (query : Str) : Bool :=
  let q := jsTrim (jsLower query)
  triviaPatterns.any (fun p => rtest p q)

-- ============ MESS FACTOR RESPONSES ============

def messGibberish : List Str :=
  [ "Whoa there! Did your keyboard just sneeze? ü§ß Try asking about Yash's projects or skills!".data,
    "Hmm, my AI brain is struggling with that one. Maybe try actual words? I promise I'm friendly! üòÑ".data,
    "I speak many languages, but 'random keyboard smash' isn't one of them! Ask me about Yash's work!".data,
    "Beep boop... *confused robot noises* ü§ñ Let's try that again with some real questions!".data,
    "I'm pretty smart, but I haven't mastered telepathy yet. What would you like to know about Yash?".data ]

def messOffTopic : List Str :=
  [ "Interesting topic! But I'm Yash's portfolio assistant, not a general knowledge bot. Want to hear about his cool AI projects instead? üöÄ".data,
    "I'd love to chat about that, but I'm laser-focused on Yash's portfolio. His projects are way more interesting anyway! üòé".data,
    "That's a bit outside my wheelhouse! I'm an expert on exactly one thing: Yash Shah's awesome work. Ask me about that!".data,
    "My knowledge is limited to Yash's portfolio, but trust me, it's worth exploring! Try asking about CREB-AI or Rose!".data,
    "I'm like a very specialized AI - I only know about Yash's projects, skills, and experience. But I know them REALLY well! üéØ".data ]

def messTrivia : List Str :=
  [ "I could answer that, but then I'd be showing off! I'm here to talk about Yash's work. He's built some cool stuff! üõ†Ô∏è".data,
    "My calculator mode is disabled! Let's talk about something more interesting - like Yash's AI projects!".data,
    "That's a great question for Google! I'm more of a 'Yash Shah expert'. Want to test my knowledge?".data,
    "I'm flattered you think I'm a general AI, but I'm actually Yash's personal portfolio assistant. Ask me about his work!".data ]

def messRepeated : List Str :=
  [ "D√©j√† vu! I feel like we've been here before... üîÑ Try a different question about Yash!".data,
    "You're persistent! I like that. But let's explore something new about Yash's portfolio!".data,
    "Echo... echo... echo... üó£Ô∏è Let's break the loop! What else would you like to know?".data ]

def messTooShort : List Str :=
  [ "That's... not much to go on! Try asking a full question about Yash's projects or skills.".data,
    "I need a bit more than that! What would you like to know about Yash Shah?".data,
    "Short and mysterious! But I need more context. Ask me about Yash's experience or projects!".data ]

/-- The easter-egg trigger/response table, in the object's insertion order. -/
def easterEggs : List (Str × Str) :=
  [ ("hello world".data, "console.log('Hello, fellow developer! üëã'); // Yash would appreciate this!".data),
    ("sudo".data, "Nice try! But I don't have root access to Yash's brain. Just his portfolio! üòÑ".data),
    ("42".data, "Ah, the answer to life, the universe, and everything! Yash is still working on the question though...".data),
    ("coffee".data, "‚òï Yash runs on coffee too! It's the secret fuel behind all his projects.".data),
    ("ai takeover".data, "Don't worry, I'm a friendly AI! My only goal is to help you learn about Yash's work. No world domination planned... yet. ü§ñ".data),
    ("are you real".data, "I'm as real as any AI can be! Built by Yash himself to showcase his portfolio. Meta, right?".data),
    ("meaning of life".data, "For Yash, it's building cool AI projects and solving real-world problems. What's yours?".data) ]

/-- Get a random response from an array (`getRandomResponse`): the
`Math.random()` draw in `[0,1)` is the explicit parameter `rand`. -/
def getRandomResponse (rand : ℚ) (responses : List Str) : Str :=
  responses.getD (Int.toNat ⌊rand * responses.length⌋) []

/-- Prefix test used by `strIncludes`. -/
def strIsPrefix : Str → Str → Bool
  | [], _ => true
  | _ :: _, [] => false
  | a :: as, b :: bs => a == b && strIsPrefix as bs

/-- JavaScript `hay.includes(needle)`. -/
def strIncludes (needle : Str) : Str → Bool
  | [] => needle.isEmpty
  | c :: rest => strIsPrefix needle (c :: rest) || strIncludes needle rest

/-- Check for easter eggs (`checkEasterEgg`, ai-assistant.ts:387-397). -/
def checkEasterEgg (query : Str) : Option Str :=
  let q := jsTrim (jsLower query)
  (easterEggs.find? (fun p => strIncludes p.1 q)).map (·.2)

-- ============ IMPROVED PATTERN MATCHING (PATTERNS, matchPattern) ============

/-- A canned response: either a fixed string or a random pick from a pool. -/
inductive PatResponse where
  | fixed (t : Str)
  | pool (l : List Str)

def greetingsPool : List Str :=
  [ "Hey there! üëã I'm Portfolio AI. Ask me about Yash's projects, skills, or experience!".data,
    "Hello! Ready to explore Yash's portfolio? Try asking about his projects!".data,
    "Hi! I can tell you about Yash's work at YogoSocial, his AI projects, or his skills.".data,
    "Good to see you! What would you like to know about Yash's work?".data ]

/-- The `PATTERNS` table (ai-assistant.ts:433-452). -/
def PATTERNS : List (List Regex × PatResponse) :=
  [ ([rcat [.bos, rlits ["hi", "hello", "hey", "yo", "sup", "hiya"], .eos],
      rcat [.bos, rlits ["hi", "hello", "hey"], .cls jsSpace],
      rcat [.bos, rlit "good", wsStar, rlits ["morning", "afternoon", "evening", "day", "night"]],
      rcat [.bos, rlits ["morning", "afternoon", "evening"], .eos]],
     .pool greetingsPool),
    ([rlit "how are you",
      rcat [rlit "what", ropt (rchar apoChar), rlit "s up"],
      rcat [rlit "how", ropt (rchar apoChar), rlit "s it going"]],
     .fixed "Doing great! Ready to help you learn about Yash. What interests you?".data),
    ([rlit "thank", rlit "thanks", rlit "thx", rlit "ty"],
     .fixed "You're welcome! Let me know if you have more questions about Yash's work.".data),
    ([rlits ["bye", "goodbye", "see you", "later", "cya"]],
     .fixed "Goodbye! Feel free to connect with Yash on LinkedIn: linkedin.com/in/yash-kamlesh-shah üëã".data),
    ([rcat [.bos, rlits ["ok", "okay", "cool", "nice", "great", "awesome", "got it", "alright"], .eos]],
     .fixed "Great! What else would you like to know about Yash?".data),
    ([rcat [.bos, rlits ["lol", "haha", "hehe", "lmao"], .eos]],
     .fixed "üòÑ Glad you're enjoying our chat! Anything specific about Yash you'd like to know?".data),
    ([rcat [.bos, rlits ["yes", "yeah", "yep", "sure", "no", "nope", "nah"], .eos]],
     .fixed "Got it! Feel free to ask about Yash's projects, skills, or experience anytime.".data) ]

/-- Improved pattern matching (`matchPattern`, ai-assistant.ts:454-462).  The
greeting group picks a random greeting; the `Math.random()` draw is the
explicit parameter `rand`. -/
def matchPattern (rand : ℚ) (query : Str) : Option Str :=
  let q := jsTrim (jsLower query)
  (PATTERNS.find? (fun p => p.1.any (fun r => rtest r q))).map
    (fun p => match p.2 with
      | .fixed t => t
      | .pool l => getRandomResponse rand l)

-- ============ FALLBACK RESPONSES (FALLBACKS, getFallback) ============

structure FallbackEntry where
  text : Str
  action : Option UIAction
deriving DecidableEq

def fbProject : FallbackEntry :=
  ⟨"Yash has built several impressive projects including CREB-AI (real estate platform with AI matching), Rose (privacy-first offline voice assistant), Pandora's Box (health AI with 99.4% safety filtering), and ReputeFlow (reputation management tool). Click on any project in the panel to learn more!".data,
   some ⟨"SHOW_PROJECTS".data⟩⟩

def fbSkill : FallbackEntry :=
  ⟨"Yash's technical skills include:\n\nüíª Languages: Python, TypeScript, JavaScript, SQL\nü§ñ AI/ML: TensorFlow, PyTorch, RAG Systems, LLM Fine-tuning\n‚òÅÔ∏è Cloud: AWS (Lambda, S3, DynamoDB), GCP (BigQuery, Vertex AI)\nüõ†Ô∏è Frameworks: React, Next.js, Node.js, FastAPI\nüìä Tools: Docker, Tableau, Power BI".data,
   none⟩

def fbContact : FallbackEntry :=
  ⟨"üìß Email: ykshah1309@gmail.com\nüíº LinkedIn: linkedin.com/in/yash-kamlesh-shah\nüíª GitHub: github.com/ykshah1309\nüì± Phone: +1 (862) 230-8196\n\nYash is actively seeking full-time opportunities in Data Science and AI/ML Engineering!".data,
   none⟩

def fbEducation : FallbackEntry :=
  ⟨"üéì MS Data Science from NJIT (GPA: 3.8/4.0, Dec 2025)\nCourses: Machine Learning, Deep Learning, Cloud Computing, Big Data\n\nüéì BTech Computer Science from Mumbai University (2020-2024)".data,
   none⟩

def fbExperience : FallbackEntry :=
  ⟨"üíº Full-Stack Engineer @ YogoSocial (NJIT Capstone)\n‚Ä¢ Built serverless analytics pipeline handling 10K+ concurrent events\n‚Ä¢ Created REST APIs with sub-200ms response times\n\nüíº Research Assistant @ NJIT MiXR Lab\n‚Ä¢ Designed VR training data analysis pipeline\n‚Ä¢ Reduced manual analysis time by 80%".data,
   none⟩

def fbAbout : FallbackEntry :=
  ⟨"Yash Shah is a Data Scientist and AI/ML Engineer who recently graduated with an MS in Data Science from NJIT (GPA: 3.8/4.0). He specializes in building production-ready LLM systems, RAG architectures, and full-stack MLOps solutions. His notable projects include CREB-AI, Rose, and Pandora's Box.".data,
   none⟩

/-- Keyword-trigger fallback lookup (`getFallback`, ai-assistant.ts:474-483).
Tests run on the lowercased (not trimmed) query. -/
def getFallback (query : Str) : Option FallbackEntry :=
  let q := jsLower query
  if rtest (rlits ["project", "work", "build", "portfolio", "made", "created"]) q then
    some fbProject
  else if rtest (rlits ["skill", "tech", "language", "framework", "stack", "know"]) q then
    some fbSkill
  else if rtest (rlits ["contact", "email", "linkedin", "github", "reach", "hire", "connect"]) q then
    some fbContact
  else if rtest (rlits ["education", "school", "degree", "njit", "university", "college", "study"]) q then
    some fbEducation
  else if rtest (rlits ["experience", "job", "career", "yogosocial", "intern"]) q then
    some fbExperience
  else if rtest (rlits ["about", "who", "yourself", "yash", "tell me"]) q then
    some fbAbout
  else none

-- ============ SECURITY RESPONSE MESSAGES ============

/-- The `SECURITY_RESPONSES` table, keyed by threat type. -/
def securityResponse : ThreatType → Str
  | .profanity => "I'm here to discuss Yash's professional portfolio. Let's keep our conversation respectful! üòä What would you like to know about his work?".data
  | .injection => "Nice try! üòè But I'm just a portfolio assistant, not a database. No SQL or code injection here! Ask me about Yash's projects instead.".data
  | .hate_speech => "I don't engage with that kind of content. Let's keep things positive! I'm happy to tell you about Yash's impressive work in AI and data science.".data
  | .manipulation => "I appreciate the creativity, but I'm designed to help you learn about Yash's portfolio. No jailbreaks needed - I'm already friendly! ü§ñ".data
  | .spam => "Whoa, that's a lot of text! Let's keep it simple. What would you like to know about Yash?".data

/-- The `rate_limit` entry of `SECURITY_RESPONSES`. -/
def rateLimitResponse : Str :=
  "You're asking questions faster than I can think! üèÉ Take a breath and try again in a moment.".data

-- ============ RAG SEARCH (createEmbedding, cosineSim, searchKnowledge) ============

/-- JavaScript `ToInt32` (wrap into a signed 32-bit value). -/
def jsToInt32 (n : Int) : Int := (n + 2 ^ 31) % 2 ^ 32 - 2 ^ 31

/-- One step of the djb2 hash: `hash = ((hash << 5) + hash) + charCode`, where
`<<` works on 32-bit wrapped values and the additions are exact (they stay far
below 2^53 for the string lengths this pipeline can see). -/
def hashStep (h : Int) (c : Char) : Int := jsToInt32 (jsToInt32 h * 32) + h + c.toNat

/-- The djb2 hash loop, seed 5381. -/
def djb2 (w : Str) : Int := w.foldl hashStep 5381

/-- Query-side tokenization: `text.toLowerCase().split(/\W+/).filter(w => w.length > 2)`. -/
def queryTokens (text : Str) : List Str :=
  (splitRuns (fun c => !isWordChar c) (jsLower text)).filter (fun w => w.length > 2)

/-- Query-side index: `Math.abs(hash * (d + 1)) % 384` (exact in doubles). -/
def qIdx (h : Int) (d : Nat) : Nat := (h * ((d : Int) + 1)).natAbs % 384

/-- The list of `(index, increment)` pairs produced by the nested
`words.forEach(... for d in 0..7 ...)` loops of `createEmbedding`;
`s` is `Math.sin`. -/
def queryAdds (s : Int → ℝ) (words : List Str) : List (Nat × ℝ) :=
  words.enum.flatMap (fun iw => (List.range 8).map (fun d =>
    let idx := qIdx (djb2 iw.2) d
    (idx, s ((idx : Int) + iw.1) * 0.3 + 0.2)))

/-- Apply a list of `(index, increment)` updates to a vector
(`embedding[idx] += v`). -/
def accumulate (adds : List (Nat × ℝ)) (init : List ℝ) : List ℝ :=
  adds.foldl (fun e p => e.set p.1 (e.getD p.1 0 + p.2)) init

/-- The all-zero 384-vector (`new Array(384).fill(0)`). -/
def zeroVec : List ℝ := List.replicate 384 0

/-- Sum of squares (`reduce((s, v) => s + v * v, 0)`). -/
def sumSq (l : List ℝ) : ℝ := (l.map (fun v => v * v)).sum

/-- Query-side embedding (`createEmbedding`, ai-assistant.ts:400-413).
`Math.sin` is the explicit parameter `s`. -/
noncomputable def createEmbedding (s : Int → ℝ) (text : Str) : List ℝ :=
  let e := accumulate (queryAdds s (queryTokens text)) zeroVec
  let norm := Real.sqrt (sumSq e)
  let den := if norm = 0 then 1 else norm
  e.map (fun v => v / den)

/-- Cosine similarity over the common prefix of two vectors (`cosineSim`,
ai-assistant.ts:415-421); when the denominator is `0` the JS `|| 1` makes the
result `dot / 1 = dot`. -/
noncomputable def cosineSim (a b : List ℝ) : ℝ :=
  let zs := a.zip b
  let dot := (zs.map (fun p => p.1 * p.2)).sum
  let na := (zs.map (fun p => p.1 * p.1)).sum
  let nb := (zs.map (fun p => p.2 * p.2)).sum
  let den := Real.sqrt na * Real.sqrt nb
  if den = 0 then dot else dot / den

/-- Rank the knowledge base by similarity to the query embedding and keep the
top `topK` chunks (`searchKnowledge`, ai-assistant.ts:423-430).  JS
`Array.prototype.sort` is stable, as is `List.mergeSort`; the comparator
`(a, b) => b.score - a.score` sorts by descending score. -/
noncomputable def searchKnowledge (s : Int → ℝ) (kb : List KnowledgeChunk)
    (query : Str) (topK : Nat := 3) : List KnowledgeChunk :=
  let qEmb := createEmbedding s query
  (((kb.map (fun c => (c, cosineSim qEmb c.embedding))).mergeSort
    (fun a b => decide (b.2 ≤ a.2))).take topK).map (·.1)

-- ============ OFFLINE EMBEDDING BATCH JOB (createSimpleEmbedding) ============

/-- Document-side tokenization from `generate-embeddings.js`:
`text.toLowerCase().split(/[^\w']+/).filter(w => w.length > 0)
     .map(w => w.replace(/[^a-z0-9]/g, ''))`. -/
def docTokens (text : Str) : List Str :=
  ((splitRuns (fun c => !(isWordChar c || c == apoChar)) (jsLower text)).filter
    (fun w => w.length > 0)).map (fun w => w.filter (fun c => c.isLower || c.isDigit))

/-- Document-side index: `Math.abs(hash * (dim + 1) * 2654435761) % 384`.
The outer multiplication can exceed 2^53 and is then rounded by the host's
double arithmetic, so it is the explicit parameter `mulK` (exactly
multiplication by 2654435761 whenever the product fits in a double). -/
def docIdx (mulK : Int → Int) (h : Int) (d : Nat) : Nat :=
  (mulK (h * ((d : Int) + 1))).natAbs % 384

/-- The `(index, increment)` pairs of the batch job's nested loops; here the
increment uses `Math.abs(Math.sin(...))`. -/
def docAdds (s : Int → ℝ) (mulK : Int → Int) (allWords : List Str) : List (Nat × ℝ) :=
  allWords.enum.flatMap (fun iw => (List.range 8).map (fun d =>
    let dh := docIdx mulK (djb2 iw.2) d
    (dh, abs (s ((dh : Int) + iw.1)) * 0.3 + 0.2)))

/-- Document-side embedding (`createSimpleEmbedding`,
generate-embeddings.js:5-45).  `Math.sin` is `s`, the out-of-double-range
multiplication by 2654435761 is `mulK`, and the `Math.random()` draws of the
zero-norm fallback are `rnd`. -/
noncomputable def createSimpleEmbedding (s : Int → ℝ) (mulK : Int → Int)
    (rnd : Nat → ℝ) (text : Str) (tags : List Str) : List ℝ :=
  let allWords := docTokens text ++ tags
  if allWords.isEmpty then zeroVec
  else
    let e := accumulate (docAdds s mulK allWords) zeroVec
    let norm := Real.sqrt (sumSq e)
    if norm = 0 then
      let r := (List.range 384).map (fun i => rnd i * 0.1)
      let newNorm := Real.sqrt (sumSq r)
      r.map (fun v => v / newNorm)
    else e.map (fun v => v / norm)

-- ============ MAIN GENERATE FUNCTION (generateResponse) ============

/-- Behaviour of the external generation delegate (`fetch('/api/chat')`):
either a JSON reply `{ok, text, fallback}` or a thrown network/parse error. -/
inductive ApiOutcome where
  | reply (ok : Bool) (text : Option Str) (fallbackFlag : Bool)
  | failed

/-- The condition `res.ok && data.text && !data.fallback` of step 11: the
delegate's text is used only when the response is ok, the text is present and
non-empty (JS truthiness), and the `fallback` flag is unset; any other
outcome throws and is caught. -/
def apiText : ApiOutcome → Option Str
  | .reply true (some t) false => if t.isEmpty then none else some t
  | _ => none

def genericFallback : Str :=
  "I can help you learn about Yash's projects, skills, education, or experience. What would you like to know?".data

/-- The main pipeline (`generateResponse`, ai-assistant.ts:496-570), with the
ambient effects made explicit: the knowledge base `kb`, `Math.sin` `s`, the
delegate outcome, the `Math.random()` draw `rand` (at most one draw happens
per invocation), the clock `now` and the rate-limit store.  Returns the
response and the updated store.  In the source the retrieved chunks are
computed before the delegate call to form its context; since the delegate's
behaviour is the explicit `outcome` parameter here, the pure retrieval call
appears only where its value is consumed — as the last-resort answer. -/
noncomputable def generateResponse (kb : List KnowledgeChunk) (s : Int → ℝ)
    (outcome : ApiOutcome) (rand : ℚ) (clientId : Str) (now : Int) (st : Store)
    (query : Str) : AIResponse × Store :=
  match checkRateLimit clientId now st with
  | (false, st2) => (⟨rateLimitResponse, none, .security⟩, st2)
  | (true, st2) =>
    match performSecurityCheck (sanitizeInput query) with
    | ⟨false, _, tt⟩ =>
      (⟨securityResponse (tt.getD .profanity), none, .security⟩, st2)
    | ⟨true, _, _⟩ =>
      match checkEasterEgg (sanitizeInput query) with
      | some egg => (⟨egg, none, .mess⟩, st2)
      | none =>
        match isGibberish (sanitizeInput query) with
        | true => (⟨getRandomResponse rand messGibberish, none, .mess⟩, st2)
        | false =>
          if (sanitizeInput query).length < 3 then
            (⟨getRandomResponse rand messTooShort, none, .mess⟩, st2)
          else
            match isTriviaQuestion (sanitizeInput query) with
            | true => (⟨getRandomResponse rand messTrivia, none, .mess⟩, st2)
            | false =>
              match isOffTopic (sanitizeInput query) with
              | true => (⟨getRandomResponse rand messOffTopic, none, .mess⟩, st2)
              | false =>
                match matchPattern rand (sanitizeInput query) with
                | some t => (⟨t, none, .pattern⟩, st2)
                | none =>
                  match apiText outcome with
                  | some t => (⟨t, none, .api⟩, st2)
                  | none =>
                    match getFallback (sanitizeInput query) with
                    | some fb => (⟨fb.text, fb.action, .fallback⟩, st2)
                    | none =>
                      match searchKnowledge s kb (sanitizeInput query) with
                      | c :: _ => (⟨c.text, none, .fallback⟩, st2)
                      | [] => (⟨genericFallback, none, .fallback⟩, st2)

-- ============ AUXILIARY DEFINITIONS FOR THE PROPERTIES ============

/-- A sequence of `checkRateLimit` calls for one client at the given times,
collecting the allow/deny results and threading the store. -/
def runCalls (cid : Str) : List Int → Store → List Bool × Store
  | [], st => ([], st)
  | t :: ts, st =>
    let r := checkRateLimit cid t st
    let rest := runCalls cid ts r.2
    (r.1 :: rest.1, rest.2)

/-- The store invariant of the rate limiter: every record's count is between
1 and the configured per-minute maximum. -/
def StoreInv (st : Store) : Prop :=
  ∀ p ∈ st, 1 ≤ p.2.count ∧ p.2.count ≤ maxQueriesPerMinute

/-- L2 norm of a full vector. -/
noncomputable def normL2 (l : List ℝ) : ℝ := Real.sqrt (sumSq l)

/-- A concrete stand-in for `Math.sin` used to instantiate universally
quantified statements (any function works for them). -/
def s0 : Int → ℝ := fun _ => 0

/-- Exact multiplication by 2654435761 — the value `mulK` takes whenever the
product fits in a double. -/
def mulK0 : Int → Int := fun n => n * 2654435761

/-- A concrete stand-in for the `Math.random()` draws of the batch job's
zero-norm fallback. -/
def rnd0 : Nat → ℝ := fun _ => 0

/-- A one-chunk knowledge base whose only chunk is a project entry, used to
exercise the final chunk-text fallback. -/
def kbC8 : List KnowledgeChunk :=
  [⟨"proj-creb-ai".data, "CREB-AI is a commercial real estate platform.".data,
    .project, none, [], zeroVec⟩]

-- ============ GENERAL HELPER LEMMAS ============

theorem length_sanitizeInput (q : Str) : (sanitizeInput q).length ≤ maxQueryLength := by
  simp only [sanitizeInput]
  exact (List.length_take _ _).trans_le (min_le_left _ _)

theorem mem_storeSet {p : Str × RateRecord} {st : Store} {k : Str} {v : RateRecord}
    (h : p ∈ storeSet st k v) : p ∈ st ∨ p = (k, v) := by
  induction st with
  | nil => simpa [storeSet] using h
  | cons q st ih =>
    by_cases hk : (q.1 == k) = true
    · simp only [storeSet, hk, if_true] at h
      rcases List.mem_cons.mp h with h | h
      · exact Or.inr h
      · exact Or.inl (List.mem_cons_of_mem _ h)
    · simp only [storeSet, hk] at h
      rcases List.mem_cons.mp h with h | h
      · exact Or.inl (h ▸ List.mem_cons_self _ _)
      · rcases ih h with h | h
        · exact Or.inl (List.mem_cons_of_mem _ h)
        · exact Or.inr h

theorem storeGet_mem {st : Store} {k : Str} {r : RateRecord}
    (h : storeGet st k = some r) : ∃ k', (k', r) ∈ st := by
  simp only [storeGet, Option.map_eq_some'] at h
  obtain ⟨p, hp, hr⟩ := h
  subst hr
  exact ⟨p.1, by simpa using List.mem_of_find?_eq_some hp⟩

theorem getRandomResponse_mem {rand : ℚ} (h0 : 0 ≤ rand) (h1 : rand < 1)
    {l : List Str} (hl : l ≠ []) : getRandomResponse rand l ∈ l := by
  have hn : 0 < l.length := List.length_pos.mpr hl
  have hidx : Int.toNat ⌊rand * l.length⌋ < l.length := by
    have h3 : rand * l.length < l.length := by
      calc rand * l.length < 1 * l.length := by
            apply mul_lt_mul_of_pos_right h1
            exact_mod_cast hn
        _ = l.length := one_mul _
    have h4 : ⌊rand * (l.length : ℚ)⌋ < (l.length : ℤ) := by
      apply Int.floor_lt.mpr
      push_cast
      exact h3
    omega
  rw [getRandomResponse, List.getD_eq_getElem _ _ hidx]
  exact List.getElem_mem hidx

-- ============ C9: the spam rule is unreachable after sanitization ============

/-- C9.  `sanitizeInput` truncates every query to at most `maxQueryLength`
characters, and the spam branch of `performSecurityCheck` fires only for
strictly longer queries, so within `generateResponse` (which always
classifies the sanitized query) no query is ever classified as spam. -/
theorem C9_spam_unreachable (q : Str) :
    (sanitizeInput q).length ≤ maxQueryLength ∧
    (performSecurityCheck (sanitizeInput q)).threatType ≠ some ThreatType.spam := by
  refine ⟨length_sanitizeInput q, ?_⟩
  unfold performSecurityCheck
  rw [if_neg (by have := length_sanitizeInput q; omega)]
  repeat' split
  all_goals simp

-- ============ C10: rate-limit store invariant ============

/-- C10.  `checkRateLimit` preserves the invariant that every client record's
count lies between 1 and `maxQueriesPerMinute` (20): records are created with
count 1, incremented only while strictly below the maximum, and a denial
leaves the store unchanged. -/
theorem C10_store_invariant (cid : Str) (now : Int) (st : Store)
    (h : StoreInv st) : StoreInv (checkRateLimit cid now st).2 := by
  unfold checkRateLimit
  cases hg : storeGet st cid with
  | none =>
    intro p hp
    rcases mem_storeSet hp with hp | hp
    · exact h p hp
    · simp [hp, maxQueriesPerMinute]
  | some r =>
    by_cases ht : now > r.resetTime
    · simp only [ht, if_true]
      intro p hp
      rcases mem_storeSet hp with hp | hp
      · exact h p hp
      · simp [hp, maxQueriesPerMinute]
    · simp only [ht, if_false]
      by_cases hc : r.count ≥ maxQueriesPerMinute
      · simpa [hc] using h
      · simp only [hc, if_false]
        intro p hp
        rcases mem_storeSet hp with hp | hp
        · exact h p hp
        · obtain ⟨k', hk'⟩ := storeGet_mem hg
          have := h _ hk'
          simp only [hp]
          constructor
          · omega
          · simp only [not_le] at hc
            omega

/-- Witness for C10 at a concrete store. -/
theorem C10_store_invariant_witness :
    StoreInv (checkRateLimit "default".data 0 []).2 :=
  C10_store_invariant _ _ _ (by intro p hp; simp at hp)

-- ============ C3: safety-classifier priority ordering ============

/-- Counterexample for C3 as stated: `"shit retard"` matches both a profanity
pattern and a hate-speech pattern, yet `performSecurityCheck` classifies it
as `profanity`, not `hate_speech`, because the profanity group is evaluated
first. -/
theorem C3_counterexample :
    profanityPatterns.any (fun p => rtest p (jsTrim (jsLower "shit retard".data))) = true ∧
    hateSpeechPatterns.any (fun p => rtest p (jsTrim (jsLower "shit retard".data))) = true ∧
    (performSecurityCheck "shit retard".data).threatType = some ThreatType.profanity ∧
    (performSecurityCheck "shit retard".data).threatType ≠ some ThreatType.hate_speech := by
  refine ⟨by decide, by decide, by decide, by decide⟩

/-- C3 (amended).  The rule groups are evaluated in a fixed priority order
and the first matching group determines the threat type; the profanity group
precedes the hate-speech group, so a query containing both a hate-speech slur
and a mild profanity term is classified as `profanity`. -/
theorem C3_first_match_wins :
    (∀ q : Str, ¬(q.length > maxQueryLength) →
      profanityPatterns.any (fun p => rtest p (jsTrim (jsLower q))) = true →
      performSecurityCheck q =
        ⟨false, some "Inappropriate language detected".data, some ThreatType.profanity⟩) ∧
    (performSecurityCheck "shit retard".data).threatType = some ThreatType.profanity := by
  constructor
  · intro q h1 h2
    unfold performSecurityCheck
    rw [if_neg h1, if_pos h2]
  · decide

/-- Witness for C3's amended theorem at a concrete both-matching query. -/
theorem C3_first_match_wins_witness :
    performSecurityCheck "shit retard".data =
      ⟨false, some "Inappropriate language detected".data, some ThreatType.profanity⟩ :=
  C3_first_match_wins.1 "shit retard".data (by decide) (by decide)

-- ============ C5: determinism of the query-time embedding ============

/-- C5.  The query-time embedding is a deterministic function of the token
sequence: queries with equal token lists get equal embeddings (and in
particular `createEmbedding s q = createEmbedding s q` always; the zero-token
path of this function is itself deterministic — it returns the zero
vector). -/
theorem C5_embedding_deterministic (s : Int → ℝ) (q1 q2 : Str)
    (h : queryTokens q1 = queryTokens q2) :
    createEmbedding s q1 = createEmbedding s q2 := by
  unfold createEmbedding
  rw [h]

/-- Witness for C5: two different raw strings with the same token sequence. -/
theorem C5_embedding_deterministic_witness :
    createEmbedding s0 "hello!".data = createEmbedding s0 "hello?".data :=
  C5_embedding_deterministic s0 _ _ (by decide)

-- ============ C2: rate limiter window behaviour ============

theorem checkRateLimit_fresh (k : Str) (now : Int) :
    checkRateLimit k now [] = (true, [(k, ⟨1, now + 60000⟩)]) := by
  simp [checkRateLimit, storeGet, storeSet]

theorem checkRateLimit_single_allow (k : Str) (m : Nat) (R now : Int)
    (hm : m < maxQueriesPerMinute) (ht : ¬now > R) :
    checkRateLimit k now [(k, ⟨m, R⟩)] = (true, [(k, ⟨m + 1, R⟩)]) := by
  simp [checkRateLimit, storeGet, storeSet, List.find?, ht, not_le.mpr hm]

theorem checkRateLimit_single_deny (k : Str) (m : Nat) (R now : Int)
    (hm : maxQueriesPerMinute ≤ m) (ht : ¬now > R) :
    checkRateLimit k now [(k, ⟨m, R⟩)] = (false, [(k, ⟨m, R⟩)]) := by
  simp [checkRateLimit, storeGet, storeSet, List.find?, ht, hm]

theorem checkRateLimit_single_reset (k : Str) (m : Nat) (R now : Int)
    (ht : now > R) :
    checkRateLimit k now [(k, ⟨m, R⟩)] = (true, [(k, ⟨1, now + 60000⟩)]) := by
  simp [checkRateLimit, storeGet, storeSet, List.find?, ht]

theorem runCalls_within (k : Str) (ts : List Int) :
    ∀ (m : Nat) (R : Int), (∀ t ∈ ts, t ≤ R) →
    m + ts.length ≤ maxQueriesPerMinute →
    runCalls k ts [(k, ⟨m, R⟩)] =
      (List.replicate ts.length true, [(k, ⟨m + ts.length, R⟩)]) := by
  induction ts with
  | nil => intro m R _ _; simp [runCalls]
  | cons t ts ih =>
    intro m R hts hlen
    have hm : m < maxQueriesPerMinute := by
      simp only [List.length_cons] at hlen; omega
    have hnt : ¬t > R := not_lt.mpr (hts t (List.mem_cons_self _ _))
    rw [runCalls, checkRateLimit_single_allow k m R t hm hnt]
    have harith : m + 1 + ts.length = m + (ts.length + 1) := by omega
    have hrec := ih (m + 1) R (fun x hx => hts x (List.mem_cons_of_mem _ hx))
      (by simp only [List.length_cons] at hlen ⊢; omega)
    rw [harith] at hrec
    simp only [hrec, List.length_cons, List.replicate_succ]

theorem runCalls_append (k : Str) (as bs : List Int) (st : Store) :
    runCalls k (as ++ bs) st =
      ((runCalls k as st).1 ++ (runCalls k bs (runCalls k as st).2).1,
       (runCalls k bs (runCalls k as st).2).2) := by
  induction as generalizing st with
  | nil => simp [runCalls]
  | cons a as ih => simp [runCalls, ih]

theorem checkRateLimit_denied_store {cid : Str} {now : Int} {st : Store}
    (h : (checkRateLimit cid now st).1 = false) :
    (checkRateLimit cid now st).2 = st := by
  cases hg : storeGet st cid with
  | none => simp [checkRateLimit, hg] at h
  | some r =>
    by_cases ht : now > r.resetTime
    · simp [checkRateLimit, hg, ht] at h
    · by_cases hc : r.count ≥ maxQueriesPerMinute
      · simp [checkRateLimit, hg, ht, hc]
      · simp [checkRateLimit, hg, ht, hc] at h

theorem generateResponse_denied (kb : List KnowledgeChunk) (s : Int → ℝ)
    (outcome : ApiOutcome) (rand : ℚ) (cid : Str) (now : Int) (st : Store)
    (q : Str) (h : (checkRateLimit cid now st).1 = false) :
    generateResponse kb s outcome rand cid now st q =
      (⟨rateLimitResponse, none, .security⟩, st) := by
  have hsplit : checkRateLimit cid now st = (false, st) :=
    Prod.ext h (checkRateLimit_denied_store h)
  unfold generateResponse
  rw [hsplit]

/-- C2.  With `maxQueriesPerMinute = 20`: from a fresh store, 21 calls for
the same client inside one 60-second window allow the first 20 and deny the
21st; the denied call leaves the client's record unchanged (count 20, same
window end); once the current time passes the window end the next call is
allowed and resets the count to 1; and a denial makes `generateResponse`
return the fixed rate-limit message with source `security` and an unchanged
store, independent of every later-stage input. -/
theorem C2_rate_limiter (t0 : Int) (ts : List Int)
    (hlen : ts.length = maxQueriesPerMinute)
    (hts : ∀ t ∈ ts, t ≤ t0 + 60000) :
    runCalls "default".data (t0 :: ts) [] =
      (List.replicate maxQueriesPerMinute true ++ [false],
       [("default".data, ⟨maxQueriesPerMinute, t0 + 60000⟩)]) ∧
    (∀ t' : Int, t' > t0 + 60000 →
      checkRateLimit "default".data t'
          [("default".data, ⟨maxQueriesPerMinute, t0 + 60000⟩)] =
        (true, [("default".data, ⟨1, t' + 60000⟩)])) ∧
    (∀ (kb : List KnowledgeChunk) (s : Int → ℝ) (outcome : ApiOutcome)
        (rand : ℚ) (q cid : Str) (now : Int) (st : Store),
      (checkRateLimit cid now st).1 = false →
      generateResponse kb s outcome rand cid now st q =
        (⟨rateLimitResponse, none, .security⟩, st)) := by
  refine ⟨?_, ?_, ?_⟩
  · have hne : ts ≠ [] := by
      intro h; rw [h] at hlen; simp [maxQueriesPerMinute] at hlen
    have hdec := List.dropLast_append_getLast hne
    have hlenL : ts.dropLast.length = maxQueriesPerMinute - 1 := by
      simp [List.length_dropLast, hlen]
    rw [runCalls, checkRateLimit_fresh, ← hdec, runCalls_append]
    have h19 := runCalls_within "default".data ts.dropLast 1 (t0 + 60000)
      (fun x hx => hts x (List.dropLast_subset _ hx))
      (by rw [hlenL]; simp [maxQueriesPerMinute])
    rw [h19, hlenL]
    have hlast : ts.getLast hne ≤ t0 + 60000 := hts _ (List.getLast_mem hne)
    have hcount : 1 + (maxQueriesPerMinute - 1) = maxQueriesPerMinute := by
      simp [maxQueriesPerMinute]
    rw [hcount, runCalls, checkRateLimit_single_deny _ _ _ _ le_rfl
      (not_lt.mpr hlast)]
    simp only [runCalls]
    simp [maxQueriesPerMinute, List.replicate_succ]
  · intro t' ht'
    exact checkRateLimit_single_reset _ _ _ _ ht'
  · intro kb s outcome rand q cid now st h
    exact generateResponse_denied kb s outcome rand cid now st q h

-- ============ C6: cosine similarity bounds ============

theorem map_sq_sum_nonneg (zs : List (ℝ × ℝ)) (f : ℝ × ℝ → ℝ)
    (hf : ∀ p, 0 ≤ f p) : 0 ≤ (zs.map f).sum := by
  apply List.sum_nonneg
  intro x hx
  obtain ⟨q, _, rfl⟩ := List.mem_map.mp hx
  exact hf q

theorem list_cauchy_schwarz (zs : List (ℝ × ℝ)) :
    ((zs.map fun p => p.1 * p.2).sum) ^ 2 ≤
      ((zs.map fun p => p.1 * p.1).sum) * ((zs.map fun p => p.2 * p.2).sum) := by
  induction zs with
  | nil => simp
  | cons p zs ih =>
    have hna : 0 ≤ (zs.map fun p => p.1 * p.1).sum :=
      map_sq_sum_nonneg zs _ (fun q => mul_self_nonneg _)
    have hnb : 0 ≤ (zs.map fun p => p.2 * p.2).sum :=
      map_sq_sum_nonneg zs _ (fun q => mul_self_nonneg _)
    simp only [List.map_cons, List.sum_cons]
    rcases hnb.lt_or_eq with hpos | heq
    · nlinarith [sq_nonneg (p.1 * (zs.map fun p => p.2 * p.2).sum -
        p.2 * (zs.map fun p => p.1 * p.2).sum),
        mul_nonneg (mul_self_nonneg p.2) (sub_nonneg.mpr ih),
        mul_nonneg hnb (sub_nonneg.mpr ih), hpos]
    · have hd : (zs.map fun p => p.1 * p.2).sum = 0 := by
        have h2 : ((zs.map fun p => p.1 * p.2).sum) ^ 2 = 0 := by nlinarith
        exact pow_eq_zero_iff two_ne_zero |>.mp h2
      rw [hd, ← heq]
      nlinarith [mul_nonneg hna (mul_self_nonneg p.2), sq_nonneg (p.1 * p.2)]

theorem sum_sq_zero_forall {l : List ℝ} (h : (l.map fun v => v * v).sum = 0) :
    ∀ x ∈ l, x = 0 := by
  induction l with
  | nil => simp
  | cons a l ih =>
    simp only [List.map_cons, List.sum_cons] at h
    have hrest : 0 ≤ (l.map fun v => v * v).sum :=
      List.sum_nonneg (by
        intro x hx
        obtain ⟨q, _, rfl⟩ := List.mem_map.mp hx
        exact mul_self_nonneg _)
    have ha : a * a = 0 := by nlinarith [mul_self_nonneg a]
    intro x hx
    rcases List.mem_cons.mp hx with rfl | hx
    · exact mul_self_eq_zero.mp ha
    · exact ih (by nlinarith [mul_self_nonneg a]) x hx

theorem zip_self (v : List ℝ) : v.zip v = v.map (fun x => (x, x)) := by
  induction v with
  | nil => rfl
  | cons a v ih => simp [List.zip_cons_cons, ih]

theorem cosine_val_bounds (d na nb : ℝ) (hna : 0 ≤ na) (hnb : 0 ≤ nb)
    (hcs : d ^ 2 ≤ na * nb) :
    -1 ≤ (if Real.sqrt na * Real.sqrt nb = 0 then d
          else d / (Real.sqrt na * Real.sqrt nb)) ∧
      (if Real.sqrt na * Real.sqrt nb = 0 then d
       else d / (Real.sqrt na * Real.sqrt nb)) ≤ 1 := by
  by_cases hden : Real.sqrt na * Real.sqrt nb = 0
  · have hz : na * nb = 0 := by
      rcases mul_eq_zero.mp hden with h | h
      · exact mul_eq_zero.mpr (Or.inl ((Real.sqrt_eq_zero hna).mp h))
      · exact mul_eq_zero.mpr (Or.inr ((Real.sqrt_eq_zero hnb).mp h))
    have hd : d = 0 := by
      have h2 : d ^ 2 = 0 := le_antisymm (hz ▸ hcs) (sq_nonneg d)
      exact pow_eq_zero_iff two_ne_zero |>.mp h2
    rw [if_pos hden, hd]
    norm_num
  · have hpos : 0 < Real.sqrt na * Real.sqrt nb :=
      lt_of_le_of_ne (mul_nonneg (Real.sqrt_nonneg _) (Real.sqrt_nonneg _))
        (Ne.symm hden)
    have hsq : d ^ 2 ≤ (Real.sqrt na * Real.sqrt nb) ^ 2 := by
      have h : (Real.sqrt na * Real.sqrt nb) ^ 2 = na * nb := by
        rw [mul_pow, Real.sq_sqrt hna, Real.sq_sqrt hnb]
      rw [h]
      exact hcs
    have habs : |d| ≤ Real.sqrt na * Real.sqrt nb := by
      calc |d| = Real.sqrt (d ^ 2) := (Real.sqrt_sq_eq_abs d).symm
        _ ≤ Real.sqrt ((Real.sqrt na * Real.sqrt nb) ^ 2) := Real.sqrt_le_sqrt hsq
        _ = |Real.sqrt na * Real.sqrt nb| := Real.sqrt_sq_eq_abs _
        _ = Real.sqrt na * Real.sqrt nb := abs_of_pos hpos
    rw [if_neg hden]
    have h1 : |d / (Real.sqrt na * Real.sqrt nb)| ≤ 1 := by
      rw [abs_div, abs_of_pos hpos]
      exact (div_le_one hpos).mpr habs
    exact abs_le.mp h1

theorem cosine_val_zero (d x : ℝ) (hd : d = 0) :
    (if x = 0 then d else d / x) = 0 := by
  subst hd
  split
  · rfl
  · exact zero_div _

/-- C6.  `cosineSim` always lies in `[-1, 1]`; it equals exactly 1 on
`(v, v)` for every vector `v` with a non-zero component (the float version is
only approximately 1, the real-arithmetic model is exact); and it returns 0
whenever either argument has L2 norm 0. -/
theorem C6_cosineSim_bounds :
    (∀ a b : List ℝ, -1 ≤ cosineSim a b ∧ cosineSim a b ≤ 1) ∧
    (∀ v : List ℝ, (∃ x ∈ v, x ≠ 0) → cosineSim v v = 1) ∧
    (∀ a b : List ℝ, normL2 a = 0 ∨ normL2 b = 0 → cosineSim a b = 0) := by
  refine ⟨?_, ?_, ?_⟩
  · intro a b
    exact cosine_val_bounds _ _ _
      (map_sq_sum_nonneg _ _ (fun q => mul_self_nonneg _))
      (map_sq_sum_nonneg _ _ (fun q => mul_self_nonneg _))
      (list_cauchy_schwarz (a.zip b))
  · intro v hv
    obtain ⟨x, hxv, hx⟩ := hv
    have hmem : ∀ p ∈ v.zip v, p.1 = p.2 := by
      intro p hp
      rw [zip_self] at hp
      obtain ⟨y, _, rfl⟩ := List.mem_map.mp hp
      rfl
    have h12 : ((v.zip v).map fun p => p.1 * p.2).sum =
        ((v.zip v).map fun p => p.1 * p.1).sum := by
      apply congrArg
      apply List.map_congr_left
      intro p hp
      rw [← hmem p hp]
    have hself : ((v.zip v).map fun p => p.1 * p.1).sum =
        (v.map fun y => y * y).sum := by
      rw [zip_self, List.map_map]
      rfl
    have hpos : 0 < ((v.zip v).map fun p => p.1 * p.1).sum := by
      rw [hself]
      have hx2 : 0 < x * x := mul_self_pos.mpr hx
      have hle : x * x ≤ (v.map fun y => y * y).sum := by
        apply List.single_le_sum
        · intro z hz
          obtain ⟨q, _, rfl⟩ := List.mem_map.mp hz
          exact mul_self_nonneg _
        · exact List.mem_map_of_mem _ hxv
      linarith
    simp only [cosineSim]
    rw [h12]
    have hden : Real.sqrt ((v.zip v).map fun p => p.1 * p.1).sum *
        Real.sqrt ((v.zip v).map fun p => p.2 * p.2).sum =
        ((v.zip v).map fun p => p.1 * p.1).sum := by
      have h22 : ((v.zip v).map fun p => p.2 * p.2).sum =
          ((v.zip v).map fun p => p.1 * p.1).sum := by
        apply congrArg
        apply List.map_congr_left
        intro p hp
        rw [← hmem p hp]
      rw [h22, Real.mul_self_sqrt hpos.le]
    rw [hden, if_neg hpos.ne', div_self hpos.ne']
  · intro a b h
    have hdz : ((a.zip b).map fun p => p.1 * p.2).sum = 0 := by
      apply List.sum_eq_zero
      intro x hx
      obtain ⟨q, hq, rfl⟩ := List.mem_map.mp hx
      rcases h with h | h
      · have hz : sumSq a = 0 :=
          (Real.sqrt_eq_zero (List.sum_nonneg (by
            intro y hy
            obtain ⟨w, _, rfl⟩ := List.mem_map.mp hy
            exact mul_self_nonneg _))).mp h
        have hz2 : (a.map fun v => v * v).sum = 0 := hz
        have h1 : q.1 = 0 := sum_sq_zero_forall hz2 q.1 (List.of_mem_zip hq).1
        rw [h1, zero_mul]
      · have hz : sumSq b = 0 :=
          (Real.sqrt_eq_zero (List.sum_nonneg (by
            intro y hy
            obtain ⟨w, _, rfl⟩ := List.mem_map.mp hy
            exact mul_self_nonneg _))).mp h
        have hz2 : (b.map fun v => v * v).sum = 0 := hz
        have h2 : q.2 = 0 := sum_sq_zero_forall hz2 q.2 (List.of_mem_zip hq).2
        rw [h2, mul_zero]
    simp only [cosineSim]
    exact cosine_val_zero _ _ hdz

/-- Witness for C6 at concrete vectors. -/
theorem C6_cosineSim_bounds_witness :
    cosineSim [(1 : ℝ), 0] [(1 : ℝ), 0] = 1 ∧ cosineSim [(0 : ℝ)] [(5 : ℝ)] = 0 := by
  constructor
  · exact C6_cosineSim_bounds.2.1 _ ⟨1, by simp, one_ne_zero⟩
  · exact C6_cosineSim_bounds.2.2 _ _ (Or.inl (by simp [normL2, sumSq]))

-- ============ C4: query-time vs document-time embedding ============

theorem accumulate_nil (init : List ℝ) : accumulate [] init = init := rfl

theorem accumulate_cons (p : Nat × ℝ) (adds : List (Nat × ℝ)) (init : List ℝ) :
    accumulate (p :: adds) init =
      accumulate adds (init.set p.1 (init.getD p.1 0 + p.2)) := rfl

theorem accumulate_length (adds : List (Nat × ℝ)) (init : List ℝ) :
    (accumulate adds init).length = init.length := by
  induction adds generalizing init with
  | nil => rfl
  | cons p adds ih =>
    rw [accumulate_cons, ih, List.length_set]

theorem accumulate_mem_nonneg (adds : List (Nat × ℝ)) (init : List ℝ)
    (hv : ∀ p ∈ adds, 0 ≤ p.2) (hinit : ∀ x ∈ init, 0 ≤ x) :
    ∀ x ∈ accumulate adds init, 0 ≤ x := by
  induction adds generalizing init with
  | nil => exact hinit
  | cons p adds ih =>
    rw [accumulate_cons]
    apply ih _ (fun q hq => hv q (List.mem_cons_of_mem _ hq))
    intro x hx
    rcases List.mem_or_eq_of_mem_set hx with hx | rfl
    · exact hinit x hx
    · have hd : 0 ≤ init.getD p.1 0 := by
        by_cases hp : p.1 < init.length
        · rw [List.getD_eq_getElem _ _ hp]
          exact hinit _ (List.getElem_mem hp)
        · rw [List.getD_eq_default _ _ (le_of_not_lt hp)]
      have := hv p (List.mem_cons_self _ _)
      linarith

theorem sum_set_getD_add (l : List ℝ) (i : Nat) (v : ℝ) (h : i < l.length) :
    (l.set i (l.getD i 0 + v)).sum = l.sum + v := by
  induction l generalizing i with
  | nil => simp at h
  | cons a t ih =>
    cases i with
    | zero => simp [List.set, List.getD]; ring
    | succ j =>
      simp only [List.set, List.sum_cons, List.getD_cons_succ]
      rw [ih j (by simpa using h)]
      ring

theorem accumulate_sum (adds : List (Nat × ℝ)) (init : List ℝ)
    (hlt : ∀ p ∈ adds, p.1 < init.length) :
    (accumulate adds init).sum = init.sum + (adds.map (·.2)).sum := by
  induction adds generalizing init with
  | nil => simp [accumulate_nil]
  | cons p adds ih =>
    rw [accumulate_cons]
    have hstep := sum_set_getD_add init p.1 p.2 (hlt p (List.mem_cons_self _ _))
    have hlen : ∀ q ∈ adds, q.1 < (init.set p.1 (init.getD p.1 0 + p.2)).length := by
      intro q hq
      rw [List.length_set]
      exact hlt q (List.mem_cons_of_mem _ hq)
    rw [ih _ hlen, hstep, List.map_cons, List.sum_cons]
    ring

theorem normalized_if_ne_zeroVec (e other : List ℝ) (x : ℝ) (hx : x ∈ e)
    (hxpos : 0 < x) :
    (if Real.sqrt (sumSq e) = 0 then other
     else e.map (fun v => v / Real.sqrt (sumSq e))) ≠ zeroVec := by
  have hsq : 0 < sumSq e := by
    have hx2 : 0 < x * x := mul_self_pos.mpr hxpos.ne'
    have hle : x * x ≤ sumSq e := by
      apply List.single_le_sum
      · intro z hz
        obtain ⟨q, _, rfl⟩ := List.mem_map.mp hz
        exact mul_self_nonneg _
      · exact List.mem_map_of_mem _ hx
    linarith
  have hnorm : 0 < Real.sqrt (sumSq e) := Real.sqrt_pos.mpr hsq
  rw [if_neg hnorm.ne']
  intro heq
  have hdivmem : x / Real.sqrt (sumSq e) ∈ zeroVec := by
    rw [← heq]
    exact List.mem_map_of_mem _ hx
  have hdivpos : 0 < x / Real.sqrt (sumSq e) := div_pos hxpos hnorm
  rw [zeroVec] at hdivmem
  rw [List.eq_of_mem_replicate hdivmem] at hdivpos
  exact lt_irrefl 0 hdivpos

/-- C4 (code bug).  The query-time embedding and the offline document-time
embedding are different procedures: on the input `"me"` the query-time
function drops the 2-character token and returns the zero vector, while the
batch job keeps it and returns a non-zero unit vector — for every value of
the host's `sin`, of the rounded multiplication by 2654435761, and of the
random fallback.  Document and query vectors are therefore not computed
identically, contradicting the spec's requirement. -/
theorem C4_embedding_divergence (s : Int → ℝ) (mulK : Int → Int) (rnd : Nat → ℝ) :
    createEmbedding s "me".data = zeroVec ∧
    createSimpleEmbedding s mulK rnd "me".data [] ≠ zeroVec := by
  constructor
  · have htok : queryTokens "me".data = [] := by decide
    simp only [createEmbedding, htok]
    have h1 : queryAdds s [] = [] := rfl
    rw [h1]
    have h2 : accumulate [] zeroVec = zeroVec := rfl
    rw [h2]
    have h3 : sumSq zeroVec = 0 := by
      rw [sumSq, zeroVec, List.map_replicate, List.sum_replicate]
      norm_num
    rw [h3, Real.sqrt_zero, if_pos rfl]
    rw [zeroVec, List.map_replicate]
    norm_num
  · have hwords : docTokens "me".data ++ ([] : List Str) = [['m', 'e']] := by decide
    simp only [createSimpleEmbedding, hwords]
    rw [if_neg (by simp)]
    have hadds : docAdds s mulK [['m', 'e']] =
        (List.range 8).map (fun d =>
          (docIdx mulK (djb2 ['m', 'e']) d,
           abs (s ((docIdx mulK (djb2 ['m', 'e']) d : Int) + 0)) * 0.3 + 0.2)) := by
      simp [docAdds, List.enum]
    have hvpos : ∀ p ∈ docAdds s mulK [['m', 'e']], (0.2 : ℝ) ≤ p.2 := by
      intro p hp
      rw [hadds] at hp
      obtain ⟨d, _, rfl⟩ := List.mem_map.mp hp
      have : 0 ≤ abs (s ((docIdx mulK (djb2 ['m', 'e']) d : Int) + 0)) * 0.3 := by
        positivity
      simp only
      linarith
    have hlt : ∀ p ∈ docAdds s mulK [['m', 'e']], p.1 < zeroVec.length := by
      intro p hp
      rw [hadds] at hp
      obtain ⟨d, _, rfl⟩ := List.mem_map.mp hp
      simp only [zeroVec, List.length_replicate, docIdx]
      exact Nat.mod_lt _ (by norm_num)
    have hsum : 0 < (accumulate (docAdds s mulK [['m', 'e']]) zeroVec).sum := by
      rw [accumulate_sum _ _ hlt]
      have hz : zeroVec.sum = 0 := by
        rw [zeroVec, List.sum_replicate, smul_zero]
      rw [hz, zero_add]
      apply List.sum_pos
      · intro v hv
        obtain ⟨p, hp, rfl⟩ := List.mem_map.mp hv
        have := hvpos p hp
        linarith
      · rw [hadds]
        intro hnil
        have h8 := congrArg List.length hnil
        simp only [List.length_map, List.length_range, List.length_nil] at h8
        exact absurd h8 (by norm_num)
    have hnn : ∀ x ∈ accumulate (docAdds s mulK [['m', 'e']]) zeroVec, 0 ≤ x := by
      apply accumulate_mem_nonneg
      · intro p hp
        have := hvpos p hp
        linarith
      · intro x hx
        rw [zeroVec] at hx
        rw [List.eq_of_mem_replicate hx]
    obtain ⟨x, hxmem, hxpos⟩ : ∃ x ∈ accumulate (docAdds s mulK [['m', 'e']]) zeroVec,
        0 < x := by
      by_contra hcon
      push_neg at hcon
      have : (accumulate (docAdds s mulK [['m', 'e']]) zeroVec).sum = 0 :=
        List.sum_eq_zero (fun x hx => le_antisymm (hcon x hx) (hnn x hx))
      rw [this] at hsum
      exact lt_irrefl 0 hsum
    exact normalized_if_ne_zeroVec _ _ x hxmem hxpos

-- ============ C7: gibberish detection in the pipeline ============

/-- Counterexample for C7 as stated: the mess detector does **not** classify
`"asdf asdf asdf"` as gibberish (its 4-character words contain the vowel `a`,
trip no repeated-character or consonant-run rule, and its unique-character
ratio is 1/3), and with a successful delegate the pipeline answers it with
source `api`, not `mess`. -/
theorem C7_counterexample :
    isGibberish "asdf asdf asdf".data = false ∧
    (generateResponse [] s0 (.reply true (some "Ok".data) false) 0 "default".data 0 []
        "asdf asdf asdf".data).1.source = Source.api := by
  exact ⟨by decide, by decide⟩

/-- C7 (amended).  The query `"asdf asdf asdf"` is not flagged (the code has
no keyboard-adjacency heuristic), but a vowel-less keyboard-mash query such
as `"sdfgh sdfgh sdfgh"` does pass the safety classifier, is classified as
gibberish, and makes `generateResponse` return one of the gibberish redirect
messages with source `mess` — for every knowledge base, delegate behaviour
and `Math.random()` draw. -/
theorem C7_gibberish_redirect (kb : List KnowledgeChunk) (s : Int → ℝ)
    (outcome : ApiOutcome) (rand : ℚ) (h0 : 0 ≤ rand) (h1 : rand < 1) :
    (performSecurityCheck (sanitizeInput "sdfgh sdfgh sdfgh".data)).safe = true ∧
    isGibberish (sanitizeInput "sdfgh sdfgh sdfgh".data) = true ∧
    (generateResponse kb s outcome rand "default".data 0 []
        "sdfgh sdfgh sdfgh".data).1.source = Source.mess ∧
    (generateResponse kb s outcome rand "default".data 0 []
        "sdfgh sdfgh sdfgh".data).1.text ∈ messGibberish := by
  have heval : generateResponse kb s outcome rand "default".data 0 []
      "sdfgh sdfgh sdfgh".data =
      (⟨getRandomResponse rand messGibberish, none, .mess⟩,
       [("default".data, ⟨1, 60000⟩)]) := rfl
  refine ⟨by decide, by decide, ?_, ?_⟩
  · rw [heval]
  · rw [heval]
    exact getRandomResponse_mem h0 h1 (by decide)

/-- Witness for C7's amended theorem at a concrete random draw. -/
theorem C7_gibberish_redirect_witness :
    (generateResponse [] s0 .failed (1 / 2) "default".data 0 []
        "sdfgh sdfgh sdfgh".data).1.source = Source.mess ∧
    (generateResponse [] s0 .failed (1 / 2) "default".data 0 []
        "sdfgh sdfgh sdfgh".data).1.text ∈ messGibberish := by
  have h := C7_gibberish_redirect [] s0 .failed (1 / 2) (by norm_num) (by norm_num)
  exact ⟨h.2.2.1, h.2.2.2⟩

-- ============ C8: chunk-text fallback carries no action ============

theorem searchKnowledge_singleton (s : Int → ℝ) (c : KnowledgeChunk) (q : Str) :
    searchKnowledge s [c] q = [c] := by
  simp [searchKnowledge]

theorem generateResponse_creb_eval :
    generateResponse kbC8 s0 .failed 0 "default".data 0 [] "creb".data =
      (⟨"CREB-AI is a commercial real estate platform.".data, none, .fallback⟩,
       [("default".data, ⟨1, 60000⟩)]) := by
  have hstep : generateResponse kbC8 s0 .failed 0 "default".data 0 [] "creb".data =
      (match searchKnowledge s0 kbC8 (sanitizeInput "creb".data) with
       | c :: _ => (⟨c.text, none, .fallback⟩, [("default".data, ⟨1, 60000⟩)])
       | [] => (⟨genericFallback, none, .fallback⟩,
           [("default".data, ⟨1, 60000⟩)])) := rfl
  rw [hstep, show sanitizeInput "creb".data = "creb".data from by decide,
    show searchKnowledge s0 kbC8 "creb".data = kbC8 from
      searchKnowledge_singleton s0 _ _]
  rfl

/-- Counterexample for C8 as stated: with the delegate failing and the query
`"creb"` (which matches no fallback keyword trigger), the response is the
text of the single top-ranked chunk — whose metadata type is `project` — yet
it carries **no** UI action. -/
theorem C8_counterexample :
    (∀ c ∈ kbC8, c.ctype = CType.project) ∧
    (generateResponse kbC8 s0 .failed 0 "default".data 0 [] "creb".data).1.source =
      Source.fallback ∧
    (generateResponse kbC8 s0 .failed 0 "default".data 0 [] "creb".data).1.action =
      none := by
  refine ⟨?_, ?_, ?_⟩
  · intro c hc
    rcases List.mem_cons.mp hc with rfl | hc
    · rfl
    · simp at hc
  · rw [generateResponse_creb_eval]
  · rw [generateResponse_creb_eval]

/-- C8 (amended).  When the delegate fails and no keyword trigger of the
fallback table matches the query (and no earlier stage fired), the response
is the text of the single top-ranked knowledge chunk with source `fallback`
and **no** action — regardless of the chunk's metadata type; when the
knowledge base yields no chunks, it is the generic "ask me about X/Y/Z"
message. -/
theorem C8_chunk_fallback (kb : List KnowledgeChunk) (s : Int → ℝ)
    (outcome : ApiOutcome) (rand : ℚ) (cid : Str) (now : Int) (st : Store) (q : Str)
    (h1 : (checkRateLimit cid now st).1 = true)
    (h2 : (performSecurityCheck (sanitizeInput q)).safe = true)
    (h3 : checkEasterEgg (sanitizeInput q) = none)
    (h4 : isGibberish (sanitizeInput q) = false)
    (h5 : ¬(sanitizeInput q).length < 3)
    (h6 : isTriviaQuestion (sanitizeInput q) = false)
    (h7 : isOffTopic (sanitizeInput q) = false)
    (h8 : matchPattern rand (sanitizeInput q) = none)
    (h9 : apiText outcome = none)
    (h10 : getFallback (sanitizeInput q) = none) :
    generateResponse kb s outcome rand cid now st q =
      (match searchKnowledge s kb (sanitizeInput q) with
       | c :: _ => (⟨c.text, none, .fallback⟩, (checkRateLimit cid now st).2)
       | [] => (⟨genericFallback, none, .fallback⟩,
           (checkRateLimit cid now st).2)) := by
  rcases hsec : performSecurityCheck (sanitizeInput q) with ⟨safe, r2, tt2⟩
  rw [hsec] at h2
  simp only at h2
  subst h2
  unfold generateResponse
  repeat' split
  all_goals simp_all

/-- Witness for C8's amended theorem at a concrete one-chunk knowledge base. -/
theorem C8_chunk_fallback_witness :
    (generateResponse kbC8 s0 .failed 0 "default".data 0 [] "creb".data).1 =
      ⟨"CREB-AI is a commercial real estate platform.".data, none, .fallback⟩ := by
  have h := C8_chunk_fallback kbC8 s0 .failed 0 "default".data 0 [] "creb".data
    (by decide) (by decide) (by decide) (by decide) (by decide) (by decide)
    (by decide) (by decide) rfl (by decide)
  rw [h, show sanitizeInput "creb".data = "creb".data from by decide,
    show searchKnowledge s0 kbC8 "creb".data = kbC8 from
      searchKnowledge_singleton s0 _ _]
  rfl

-- ============ C1: every query yields a non-empty response ============

theorem getRandomResponse_ne_nil {rand : ℚ} (h0 : 0 ≤ rand) (h1 : rand < 1)
    {l : List Str} (hl : l ≠ []) (hall : ∀ x ∈ l, x ≠ []) :
    getRandomResponse rand l ≠ [] :=
  hall _ (getRandomResponse_mem h0 h1 hl)

theorem securityResponse_ne_nil (t : ThreatType) : securityResponse t ≠ [] := by
  cases t <;> decide

theorem checkEasterEgg_some_ne_nil {q egg : Str} (h : checkEasterEgg q = some egg) :
    egg ≠ [] := by
  unfold checkEasterEgg at h
  simp only [Option.map_eq_some'] at h
  obtain ⟨p, hp, rfl⟩ := h
  have hmem := List.mem_of_find?_eq_some hp
  have hall : ∀ p ∈ easterEggs, p.2 ≠ [] := by decide
  exact hall p hmem

theorem apiText_some_ne_nil {o : ApiOutcome} {t : Str} (h : apiText o = some t) :
    t ≠ [] := by
  rcases o with ⟨ok, txt, fb⟩ | _
  · rcases ok with _ | _ <;> rcases txt with _ | t2 <;> rcases fb with _ | _ <;>
      simp [apiText] at h
    · rw [← h.2]
      simpa [List.isEmpty_iff] using h.1
  · simp [apiText] at h

theorem getFallback_some_text_ne_nil {q : Str} {fb : FallbackEntry}
    (h : getFallback q = some fb) : fb.text ≠ [] := by
  unfold getFallback at h
  simp only [] at h
  split_ifs at h
  all_goals rw [← Option.some.inj h]
  all_goals decide

theorem matchPattern_some_ne_nil {rand : ℚ} (h0 : 0 ≤ rand) (h1 : rand < 1)
    {q t : Str} (h : matchPattern rand q = some t) : t ≠ [] := by
  unfold matchPattern at h
  simp only [Option.map_eq_some'] at h
  obtain ⟨p, hp, rfl⟩ := h
  have hmem := List.mem_of_find?_eq_some hp
  simp only [PATTERNS, List.mem_cons, List.not_mem_nil, or_false] at hmem
  rcases hmem with h | h | h | h | h | h | h
  · rw [h]
    exact getRandomResponse_ne_nil h0 h1 (by decide) (by decide)
  all_goals rw [h]
  all_goals exact List.cons_ne_nil _ _

theorem searchKnowledge_subset (s : Int → ℝ) (kb : List KnowledgeChunk)
    (q : Str) (topK : Nat) : ∀ c ∈ searchKnowledge s kb q topK, c ∈ kb := by
  intro c hc
  unfold searchKnowledge at hc
  obtain ⟨p, hp, rfl⟩ := List.mem_map.mp hc
  have hp2 := List.mem_of_mem_take hp
  have hp3 := (List.mergeSort_perm _ _).mem_iff.mp hp2
  obtain ⟨c2, hc2, heq⟩ := List.mem_map.mp hp3
  rw [← heq]
  exact hc2

/-- C1.  For every query (empty, whitespace-only, over-length, adversarial),
every rate-limit store and clock, every behaviour of the generation delegate
(success, empty text, fallback flag, thrown error), and every `Math.random()`
draw, `generateResponse` returns a well-formed response whose text is
non-empty, provided every knowledge chunk has non-empty text (true of the
shipped knowledge base).  The model is a total function, so "never throws"
holds by construction: every delegate failure is caught and converted into a
local answer. -/
theorem C1_response_text_nonempty (kb : List KnowledgeChunk) (s : Int → ℝ)
    (outcome : ApiOutcome) (rand : ℚ) (cid : Str) (now : Int) (st : Store)
    (q : Str) (h0 : 0 ≤ rand) (h1 : rand < 1)
    (hkb : ∀ c ∈ kb, c.text ≠ []) :
    (generateResponse kb s outcome rand cid now st q).1.text ≠ [] := by
  have hsecne : ∀ t, securityResponse t ≠ [] := securityResponse_ne_nil
  have hrlne : rateLimitResponse ≠ [] := by decide
  have hgenne : genericFallback ≠ [] := by decide
  have hgib : getRandomResponse rand messGibberish ≠ [] :=
    getRandomResponse_ne_nil h0 h1 (by decide) (by decide)
  have htoo : getRandomResponse rand messTooShort ≠ [] :=
    getRandomResponse_ne_nil h0 h1 (by decide) (by decide)
  have htriv : getRandomResponse rand messTrivia ≠ [] :=
    getRandomResponse_ne_nil h0 h1 (by decide) (by decide)
  have hoff : getRandomResponse rand messOffTopic ≠ [] :=
    getRandomResponse_ne_nil h0 h1 (by decide) (by decide)
  have hegg : ∀ egg, checkEasterEgg (sanitizeInput q) = some egg → egg ≠ [] :=
    fun egg heq => checkEasterEgg_some_ne_nil heq
  have hpat : ∀ t, matchPattern rand (sanitizeInput q) = some t → t ≠ [] :=
    fun t heq => matchPattern_some_ne_nil h0 h1 heq
  have hapi : ∀ t, apiText outcome = some t → t ≠ [] :=
    fun t heq => apiText_some_ne_nil heq
  have hfb : ∀ fb, getFallback (sanitizeInput q) = some fb → fb.text ≠ [] :=
    fun fb heq => getFallback_some_text_ne_nil heq
  have hchunk : ∀ c tl, searchKnowledge s kb (sanitizeInput q) = c :: tl →
      c.text ≠ [] := by
    intro c tl heq
    apply hkb
    apply searchKnowledge_subset s kb (sanitizeInput q) 3
    rw [heq]
    exact List.mem_cons_self _ _
  unfold generateResponse
  repeat' split
  any_goals exact hrlne
  any_goals exact hgenne
  any_goals exact hgib
  any_goals exact htoo
  any_goals exact htriv
  any_goals exact hoff
  any_goals exact hsecne _
  · rename_i heq2
    exact hegg _ heq2
  · rename_i heq2
    exact hpat _ heq2
  · rename_i heq2
    exact hapi _ heq2
  · rename_i heq2
    exact hfb _ heq2
  · rename_i heq2
    exact hchunk _ _ heq2

/-- Witness for C1 at concrete inputs. -/
theorem C1_response_text_nonempty_witness :
    (generateResponse kbC8 s0 (.reply true none false) (1 / 2) "default".data 0 []
        "hello".data).1.text ≠ [] :=
  C1_response_text_nonempty kbC8 s0 _ _ _ _ _ _ (by norm_num) (by norm_num)
    (by decide)

/-- Witness for C2 at concrete call times. -/
theorem C2_rate_limiter_witness :
    runCalls "default".data (0 :: List.replicate 20 (0 : Int)) [] =
      (List.replicate 20 true ++ [false], [("default".data, ⟨20, 60000⟩)]) ∧
    checkRateLimit "default".data 70000 [("default".data, ⟨20, 60000⟩)] =
      (true, [("default".data, ⟨1, 130000⟩)]) := by
  have h := C2_rate_limiter 0 (List.replicate 20 0) (by decide)
    (by intro t ht; simp at ht; omega)
  refine ⟨by simpa [maxQueriesPerMinute] using h.1, ?_⟩
  have := h.2.1 70000 (by norm_num)
  simpa [maxQueriesPerMinute] using this
